import Mathlib

/-!
Verification development for the TechScanIQ continuous-monitoring core
(change detector, alert engine, monitoring pipeline, Kafka client).

The Python sources are shallowly embedded: dictionaries become structures
or association lists, machine floats become rationals, fallible or
I/O-dependent steps become explicit parameters (injected send outcomes,
explicit clock values, an explicit expiring-cache state).  Each definition
mirrors one Python function of the repository and is named after it.
-/

namespace TechScanIQ

/-- Association-list lookup, mirroring a Python dict read `d.get(k)`:
the first binding for the key wins. -/
def alist_get {α : Type} (l : List (String × α)) (k : String) : Option α :=
  (l.find? (fun p => p.fst == k)).map Prod.snd

/-- Python substring test `needle in hay` on strings. -/
def str_contains (hay needle : String) : Bool :=
  (List.range (hay.length + 1)).any (fun i => needle.data.isPrefixOf (hay.data.drop i))

/-- Version-string parse used by the version predicates of
`change_detector.py`: `[int(x) for x in version.split(".")]`, where a
component parses as a decimal numeral (a `ValueError` on any component
makes the whole parse fail).  `String.splitOn "."` on a nonempty pattern
always returns at least one component, exactly like Python `str.split`. -/
def parse_version (v : String) : Option (List Nat) :=
  let parts := v.splitOn "."
  if parts.all (fun p => (p.toNat?).isSome)
  then some (parts.map (fun p => (p.toNat?).getD 0))
  else none

/-- One detected-technology record of a scan snapshot
(`result_summary.technologies.detected[i]`). -/
structure TechRecord where
  name : String
  version : Option String := none
  category : Option String := none
  confidence : Option ℚ := none
  detection_method : Option String := none
  indicators : List String := []
  deriving Repr, DecidableEq

/-- The `technologies` section of a scan snapshot. -/
structure TechSection where
  detected : List TechRecord := []
  scan_timestamp : Option String := none
  deriving Repr, DecidableEq

/-- The `performance` section of a scan snapshot. -/
structure PerfSection where
  load_time : Option ℚ := none
  ttfb : Option ℚ := none
  fcp : Option ℚ := none
  lcp : Option ℚ := none
  cls : Option ℚ := none
  fid : Option ℚ := none
  lighthouse_score : Option ℚ := none
  issues : List String := []
  scan_timestamp : Option String := none
  deriving Repr, DecidableEq

/-- One vulnerability record of the `security` section. -/
structure Vuln where
  vid : Option String := none
  vtype : Option String := none
  severity : Option String := none
  description : Option String := none
  cve_ids : List String := []
  remediation : Option String := none
  deriving Repr, DecidableEq

/-- The `security` section of a scan snapshot; `security_headers` is the
header-name to header-value map, `ssl_fingerprint` is `ssl_info.fingerprint`. -/
structure SecSection where
  vulnerabilities : List Vuln := []
  security_headers : List (String × String) := []
  ssl_fingerprint : Option String := none
  deriving Repr, DecidableEq

/-- The `content` section of a scan snapshot. -/
structure ContentSection where
  title : String := ""
  meta_description : String := ""
  content_hash : Option String := none
  deriving Repr, DecidableEq

/-- The `infrastructure` section of a scan snapshot. -/
structure InfraSection where
  server_software : String := ""
  ip_address : String := ""
  cdn_providers : List String := []
  deriving Repr, DecidableEq

/-- A scan snapshot (`result_summary`); absent sections are the empty
defaults, matching `old_scan.get(section, {})`. -/
structure Snapshot where
  technologies : TechSection := {}
  performance : PerfSection := {}
  security : SecSection := {}
  content : ContentSection := {}
  infrastructure : InfraSection := {}
  scan_timestamp : Option String := none
  scan_id : Option String := none
  deriving Repr, DecidableEq

/-- The `evidence` dictionary attached to a change, one constructor per
shape the detector builds. -/
inductive Evidence where
  | techAdded (detection_method : Option String) (indicators : List String)
  | techRemoved (last_seen : Option String) (detection_method : Option String)
  | versionComparison (old new : String) (is_upgrade : Bool)
  | perfMetric (threshold_used : ℚ) (old_scan_time new_scan_time : Option String)
  | perfIssue (issue : String)
  | vulnAdded (details : Vuln) (cve_ids : List String)
  | vulnFixed (vuln : Vuln)
  | headerChange (header : String) (old_value : String) (new_value : Option String)
  | sslChange (old_fingerprint new_fingerprint : Option String)
  | titleChange (old new : String) (similarity : ℚ)
  | descChange (old new : String) (similarity : ℚ)
  | hashChange (old new : String)
  | serverChange (old new : String)
  | ipChange (old new : String)
  | cdnChange (old new added removed : List String)
  deriving Repr, DecidableEq

/-- One detected change: the union of the keys the detector writes into
its per-change dictionaries; a key absent from a given change kind is
`none`, so `change.get(k, d)` embeds as `(c.k).getD d`. -/
structure Change where
  ctype : String
  change_type : Option String := none
  technology_name : Option String := none
  technology_category : Option String := none
  old_version : Option String := none
  new_version : Option String := none
  confidence : Option ℚ := none
  impact_assessment : Option String := none
  metric_name : Option String := none
  metric_display_name : Option String := none
  unit : Option String := none
  old_value : Option ℚ := none
  new_value : Option ℚ := none
  change_percent : Option ℚ := none
  threshold_exceeded : Option Bool := none
  severity : Option String := none
  is_degradation : Option Bool := none
  issue : Option String := none
  vulnerability_type : Option String := none
  description : Option String := none
  remediation_advice : Option String := none
  cve_ids : Option (List String) := none
  evidence : Evidence
  deriving Repr, DecidableEq

/-- Noise-filtering configuration (`ChangeDetector._load_noise_filters`). -/
structure NoiseFilters where
  ignore_minor_updates : List String
  noisy_technologies : List String
  deriving Repr, DecidableEq

/-- `_load_noise_filters` of `change_detector.py`. -/
def load_noise_filters : NoiseFilters :=
  { ignore_minor_updates :=
      ["google-analytics", "gtag", "facebook-pixel",
       "jquery", "bootstrap", "font-awesome"],
    noisy_technologies :=
      ["google-analytics", "gtag", "googletagmanager",
       "facebook-pixel", "hotjar", "mixpanel"] }

/-- `_load_technology_importance` of `change_detector.py`. -/
def load_technology_importance : List (String × String) :=
  [("apache", "critical"), ("nginx", "critical"), ("mysql", "critical"),
   ("postgresql", "critical"), ("redis", "critical"), ("mongodb", "critical"),
   ("react", "high"), ("vue", "high"), ("angular", "high"),
   ("node.js", "high"), ("express", "high"), ("django", "high"),
   ("flask", "high"), ("rails", "high"),
   ("jquery", "medium"), ("bootstrap", "medium"), ("webpack", "medium"),
   ("google-analytics", "low"), ("gtag", "low"), ("facebook-pixel", "low")]

/-- `_assess_tech_impact`: look the lowercased name up in the importance
table, defaulting to "medium". -/
def assess_tech_impact (tech_name : String) : String :=
  (alist_get load_technology_importance tech_name.toLower).getD "medium"

/-- `_is_major_version_change`: compare `int(version.split(".")[0])` of
both versions; a parse failure yields `false`. -/
def is_major_version_change (old_version new_version : String) : Bool :=
  match ((old_version.splitOn ".").headI).toNat?,
        ((new_version.splitOn ".").headI).toNat? with
  | some o, some n => o != n
  | _, _ => false

/-- `_assess_version_impact`: the base importance, bumped one level (index
into low/medium/high/critical, capped at critical) on a major version change. -/
def assess_version_impact (tech_name old_version new_version : String) : String :=
  let base_impact := assess_tech_impact tech_name
  if is_major_version_change old_version new_version then
    let impact_levels := ["low", "medium", "high", "critical"]
    let current_idx :=
      if base_impact ∈ impact_levels then impact_levels.indexOf base_impact else 1
    impact_levels.getD (min (current_idx + 1) (impact_levels.length - 1)) ""
  else
    base_impact

/-- `_is_significant_version_change`: on a parse failure of either version
the change counts as significant; otherwise the first branch compares the
major components (the later minor-component branch is kept as written —
it is unreachable because a successful parse always has at least one
component). -/
def is_significant_version_change (old_version new_version : String) : Bool :=
  match parse_version old_version, parse_version new_version with
  | some old_parts, some new_parts =>
    if 0 < old_parts.length && 0 < new_parts.length then
      old_parts.headI != new_parts.headI
    else if 1 < old_parts.length && 1 < new_parts.length then
      old_parts.getD 1 0 != new_parts.getD 1 0
    else
      true
  | _, _ => true

/-- `_is_minor_version_change`: true when both versions have at least
three parsed components with equal major and minor but different patch. -/
def is_minor_version_change (old_version new_version : String) : Bool :=
  match parse_version old_version, parse_version new_version with
  | some old_parts, some new_parts =>
    3 ≤ old_parts.length && 3 ≤ new_parts.length &&
      old_parts.headI == new_parts.headI &&
      old_parts.getD 1 0 == new_parts.getD 1 0 &&
      old_parts.getD 2 0 != new_parts.getD 2 0
  | _, _ => false

/-- `_is_version_upgrade`: lexicographic comparison on the shared length
of the parsed components, longer wins on a tie; parse failure counts as
an upgrade. -/
def version_upgrade_cmp : List Nat → List Nat → Bool
  | _, [] => false
  | [], _ :: _ => true
  | o :: os, n :: ns => if n > o then true else if n < o then false else version_upgrade_cmp os ns

/-- `_is_version_upgrade` of `change_detector.py`. -/
def is_version_upgrade (old_version new_version : String) : Bool :=
  match parse_version old_version, parse_version new_version with
  | some old_parts, some new_parts => version_upgrade_cmp old_parts new_parts
  | _, _ => true

/-- Worker for `py_keys`, carrying the set of already-seen entries. -/
def py_keys_aux (seen : List String) : List String → List String
  | [] => []
  | x :: xs => if x ∈ seen then py_keys_aux seen xs
               else x :: py_keys_aux (x :: seen) xs

/-- Python set/dict-key iteration over a list of strings: duplicates
collapse, first occurrences are kept in order. -/
def py_keys (l : List String) : List String :=
  py_keys_aux [] l

/-- Names of a detected-technology list; Python builds the key set of a
name-keyed dictionary, so duplicates collapse while the first-occurrence
order is kept. -/
def tech_names (l : List TechRecord) : List String :=
  py_keys (l.map (fun t => t.name))

/-- Python's `next(t for t in detected if t["name"] == name)`: the first
record carrying the name. -/
def find_tech (l : List TechRecord) (name : String) : Option TechRecord :=
  l.find? (fun t => t.name == name)

/-- The `added` branch of `_detect_technology_changes`. -/
def tech_added_change (new_tech : TechSection) (name : String) : Option Change :=
  (find_tech new_tech.detected name).map (fun tech_data =>
    { ctype := "technology_change",
      change_type := some "added",
      technology_name := some name,
      technology_category := some (tech_data.category.getD "unknown"),
      new_version := tech_data.version,
      confidence := some (tech_data.confidence.getD 1),
      impact_assessment := some (assess_tech_impact name),
      evidence := .techAdded tech_data.detection_method tech_data.indicators })

/-- The `removed` branch of `_detect_technology_changes`. -/
def tech_removed_change (old_tech : TechSection) (name : String) : Option Change :=
  (find_tech old_tech.detected name).map (fun tech_data =>
    { ctype := "technology_change",
      change_type := some "removed",
      technology_name := some name,
      technology_category := some (tech_data.category.getD "unknown"),
      old_version := tech_data.version,
      confidence := some 1,
      impact_assessment := some (assess_tech_impact name),
      evidence := .techRemoved old_tech.scan_timestamp tech_data.detection_method })

/-- The change record built for one significant version change. -/
def version_changed_record (name : String)
    (old_tech_data new_tech_data : TechRecord) : Change :=
  { ctype := "technology_change",
    change_type := some "version_changed",
    technology_name := some name,
    technology_category := some (new_tech_data.category.getD "unknown"),
    old_version := some (old_tech_data.version.getD ""),
    new_version := some (new_tech_data.version.getD ""),
    confidence := some (min (old_tech_data.confidence.getD 1)
                            (new_tech_data.confidence.getD 1)),
    impact_assessment := some (assess_version_impact name
      (old_tech_data.version.getD "") (new_tech_data.version.getD "")),
    evidence := .versionComparison (old_tech_data.version.getD "")
      (new_tech_data.version.getD "")
      (is_version_upgrade (old_tech_data.version.getD "")
        (new_tech_data.version.getD "")) }

/-- The `version_changed` branch of `_detect_technology_changes`: both
versions non-empty and different, and the change significant. -/
def tech_version_change (old_tech new_tech : TechSection) (name : String) : Option Change :=
  match find_tech old_tech.detected name, find_tech new_tech.detected name with
  | some old_tech_data, some new_tech_data =>
    let old_version := old_tech_data.version.getD ""
    let new_version := new_tech_data.version.getD ""
    if old_version ≠ "" ∧ new_version ≠ "" ∧ old_version ≠ new_version then
      if is_significant_version_change old_version new_version then
        some (version_changed_record name old_tech_data new_tech_data)
      else none
    else none
  | _, _ => none

/-- `_detect_technology_changes`: added, removed, then version changes,
each section iterating a set difference or intersection of the name sets. -/
def detect_technology_changes (old_tech new_tech : TechSection) : List Change :=
  let old_names := tech_names old_tech.detected
  let new_names := tech_names new_tech.detected
  let added := (new_names.filter (fun n => n ∉ old_names)).filterMap
    (tech_added_change new_tech)
  let removed := (old_names.filter (fun n => n ∉ new_names)).filterMap
    (tech_removed_change old_tech)
  let version_changed := (old_names.filter (fun n => n ∈ new_names)).filterMap
    (tech_version_change old_tech new_tech)
  added ++ removed ++ version_changed

/-- The fixed metric list of `_detect_performance_changes`:
(key, display name, unit, default threshold percent). -/
def metrics_to_check : List (String × String × String × ℚ) :=
  [("load_time", "Page Load Time", "ms", 15),
   ("ttfb", "Time to First Byte", "ms", 20),
   ("fcp", "First Contentful Paint", "ms", 20),
   ("lcp", "Largest Contentful Paint", "ms", 20),
   ("cls", "Cumulative Layout Shift", "score", 25),
   ("fid", "First Input Delay", "ms", 30),
   ("lighthouse_score", "Lighthouse Performance Score", "score", 10)]

/-- `perf.get(metric_key)` for the keys of `metrics_to_check`. -/
def get_metric (p : PerfSection) : String → Option ℚ
  | "load_time" => p.load_time
  | "ttfb" => p.ttfb
  | "fcp" => p.fcp
  | "lcp" => p.lcp
  | "cls" => p.cls
  | "fid" => p.fid
  | "lighthouse_score" => p.lighthouse_score
  | _ => none

/-- The per-metric body of `_detect_performance_changes`: both values
present, old positive, percent change beyond the (config-overridable)
threshold; severity tiers at 1x/1.5x/2x the threshold. -/
def perf_metric_change (old_perf new_perf : PerfSection)
    (thresholds : List (String × ℚ)) :
    String × String × String × ℚ → Option Change
  | (metric_key, metric_name, unit, default_threshold) =>
    match get_metric old_perf metric_key, get_metric new_perf metric_key with
    | some old_value, some new_value =>
      if 0 < old_value then
        let change_percent := ((new_value - old_value) / old_value) * 100
        let threshold := (alist_get thresholds metric_key).getD default_threshold
        if threshold < |change_percent| then
          let severity :=
            if threshold * 2 < |change_percent| then "critical"
            else if threshold * (3/2) < |change_percent| then "warning"
            else "info"
          let is_degradation :=
            if metric_key ≠ "lighthouse_score" then 0 < change_percent
            else change_percent < 0
          some
            { ctype := "performance_change",
              metric_name := some metric_key,
              metric_display_name := some metric_name,
              unit := some unit,
              old_value := some old_value,
              new_value := some new_value,
              change_percent := some change_percent,
              threshold_exceeded := some true,
              severity := some severity,
              is_degradation := some is_degradation,
              evidence := .perfMetric threshold old_perf.scan_timestamp
                new_perf.scan_timestamp }
        else none
      else none
    | _, _ => none

/-- An `issue_added` or `issue_resolved` performance change. -/
def perf_issue_change (kind : String) (sev : String) (issue : String) : Change :=
  { ctype := "performance_change",
    change_type := some kind,
    issue := some issue,
    severity := some sev,
    evidence := .perfIssue issue }

/-- `_detect_performance_changes`: the metric comparisons followed by the
set differences of the issue lists (Python builds sets, so duplicates
collapse). -/
def detect_performance_changes (old_perf new_perf : PerfSection)
    (thresholds : List (String × ℚ)) : List Change :=
  let metric_changes := metrics_to_check.filterMap
    (perf_metric_change old_perf new_perf thresholds)
  let old_issues := py_keys old_perf.issues
  let new_issues := py_keys new_perf.issues
  let added := (new_issues.filter (fun i => i ∉ old_issues)).map
    (perf_issue_change "issue_added" "warning")
  let resolved := (old_issues.filter (fun i => i ∉ new_issues)).map
    (perf_issue_change "issue_resolved" "info")
  metric_changes ++ added ++ resolved

/-- Key of a vulnerability record: `v.get("id", v.get("type", ""))`. -/
def vuln_key (v : Vuln) : String :=
  v.vid.getD (v.vtype.getD "")

/-- Python's `{vuln_key(v): v for v in l}` read back at a key: the last
record with that key wins. -/
def lookup_vuln (l : List Vuln) (k : String) : Option Vuln :=
  l.reverse.find? (fun v => vuln_key v == k)

/-- Key set of the vulnerability dictionary, first-occurrence order. -/
def vuln_keys (l : List Vuln) : List String :=
  py_keys (l.map vuln_key)

/-- `_assess_header_change_severity`: critical headers removed entirely
escalate to critical; other changes on critical headers are medium; the
rest are low.  `old_value` is truthy iff non-empty, `new_value` falsy iff
absent or empty. -/
def assess_header_change_severity (header : String) (old_value : String)
    (new_value : Option String) : String :=
  let critical_headers :=
    ["strict-transport-security", "content-security-policy", "x-frame-options"]
  if header.toLower ∈ critical_headers then
    if old_value ≠ "" ∧ (new_value = none ∨ new_value = some "") then "critical"
    else "medium"
  else "low"

/-- The `vulnerability_added` change for one new key. -/
def vuln_added_change (new_vulns : List Vuln) (k : String) : Option Change :=
  (lookup_vuln new_vulns k).map (fun vuln =>
    { ctype := "security_change",
      change_type := some "vulnerability_added",
      vulnerability_type := vuln.vtype,
      severity := some (vuln.severity.getD "medium"),
      description := some (vuln.description.getD ""),
      remediation_advice := some (vuln.remediation.getD ""),
      evidence := .vulnAdded vuln vuln.cve_ids })

/-- The `vulnerability_fixed` change for one disappeared key. -/
def vuln_fixed_change (old_vulns : List Vuln) (k : String) : Option Change :=
  (lookup_vuln old_vulns k).map (fun vuln =>
    { ctype := "security_change",
      change_type := some "vulnerability_fixed",
      vulnerability_type := vuln.vtype,
      severity := some "info",
      description := some ("Vulnerability fixed: " ++ vuln.description.getD k),
      evidence := .vulnFixed vuln })

/-- The change record built for one differing security header. -/
def header_changed_change (new_headers : List (String × String))
    (header old_value : String) : Change :=
  { ctype := "security_change",
    change_type := some "security_header_changed",
    description := some ("Security header " ++ header ++ " changed"),
    severity := some (assess_header_change_severity header old_value
      (alist_get new_headers header)),
    evidence := .headerChange header old_value (alist_get new_headers header) }

/-- The security-header comparison of `_detect_security_changes`: iterate
the old header map; report whenever the new value differs (including a
header missing from the new snapshot). -/
def header_change (new_headers : List (String × String)) :
    String × String → Option Change
  | (header, old_value) =>
    if alist_get new_headers header ≠ some old_value then
      some (header_changed_change new_headers header old_value)
    else none

/-- `_detect_security_changes`: vulnerability set diff by key, header
diffs over the old header map, and an SSL fingerprint comparison. -/
def detect_security_changes (old_security new_security : SecSection) : List Change :=
  let old_keys := vuln_keys old_security.vulnerabilities
  let new_keys := vuln_keys new_security.vulnerabilities
  let added := (new_keys.filter (fun k => k ∉ old_keys)).filterMap
    (vuln_added_change new_security.vulnerabilities)
  let fixed := (old_keys.filter (fun k => k ∉ new_keys)).filterMap
    (vuln_fixed_change old_security.vulnerabilities)
  let headers := old_security.security_headers.filterMap
    (header_change new_security.security_headers)
  let ssl :=
    if old_security.ssl_fingerprint ≠ new_security.ssl_fingerprint then
      [{ ctype := "security_change",
         change_type := some "ssl_certificate_changed",
         description := some "SSL certificate changed",
         severity := some "medium",
         evidence := .sslChange old_security.ssl_fingerprint
           new_security.ssl_fingerprint : Change }]
    else []
  added ++ fixed ++ headers ++ ssl

/-- `_detect_content_changes`; the string-similarity ratio of
`difflib.SequenceMatcher` is injected as the pure function `sim`. -/
def detect_content_changes (sim : String → String → ℚ)
    (old_content new_content : ContentSection) : List Change :=
  let old_title := old_content.title.trim
  let new_title := new_content.title.trim
  let title_changes :=
    if old_title ≠ "" ∧ new_title ≠ "" ∧ old_title ≠ new_title then
      let similarity := sim old_title new_title
      if similarity < 4/5 then
        [{ ctype := "content_change",
           change_type := some "title_changed",
           description := some "Page title changed significantly",
           severity := some "info",
           evidence := .titleChange old_title new_title similarity : Change }]
      else []
    else []
  let old_desc := old_content.meta_description.trim
  let new_desc := new_content.meta_description.trim
  let desc_changes :=
    if old_desc ≠ "" ∧ new_desc ≠ "" ∧ old_desc ≠ new_desc then
      let similarity := sim old_desc new_desc
      if similarity < 7/10 then
        [{ ctype := "content_change",
           change_type := some "meta_description_changed",
           description := some "Meta description changed significantly",
           severity := some "info",
           evidence := .descChange old_desc new_desc similarity : Change }]
      else []
    else []
  let hash_changes :=
    match old_content.content_hash, new_content.content_hash with
    | some old_hash, some new_hash =>
      if old_hash ≠ "" ∧ new_hash ≠ "" ∧ old_hash ≠ new_hash then
        [{ ctype := "content_change",
           change_type := some "content_hash_changed",
           description := some "Page content changed",
           severity := some "info",
           evidence := .hashChange old_hash new_hash : Change }]
      else []
    | _, _ => []
  title_changes ++ desc_changes ++ hash_changes

/-- `_detect_infrastructure_changes`. -/
def detect_infrastructure_changes (old_infra new_infra : InfraSection) : List Change :=
  let server_changes :=
    if old_infra.server_software ≠ "" ∧ new_infra.server_software ≠ "" ∧
        old_infra.server_software ≠ new_infra.server_software then
      [{ ctype := "infrastructure_change",
         change_type := some "server_software_changed",
         description := some "Server software changed",
         severity := some "medium",
         evidence := .serverChange old_infra.server_software
           new_infra.server_software : Change }]
    else []
  let ip_changes :=
    if old_infra.ip_address ≠ "" ∧ new_infra.ip_address ≠ "" ∧
        old_infra.ip_address ≠ new_infra.ip_address then
      [{ ctype := "infrastructure_change",
         change_type := some "ip_address_changed",
         description := some "IP address changed",
         severity := some "medium",
         evidence := .ipChange old_infra.ip_address new_infra.ip_address : Change }]
    else []
  let old_cdn := py_keys old_infra.cdn_providers
  let new_cdn := py_keys new_infra.cdn_providers
  let cdn_changes :=
    if ¬ (old_cdn.all (fun c => c ∈ new_cdn) ∧ new_cdn.all (fun c => c ∈ old_cdn)) then
      [{ ctype := "infrastructure_change",
         change_type := some "cdn_changed",
         description := some "CDN configuration changed",
         severity := some "info",
         evidence := .cdnChange old_cdn new_cdn
           (new_cdn.filter (fun c => c ∉ old_cdn))
           (old_cdn.filter (fun c => c ∉ new_cdn)) : Change }]
    else []
  server_changes ++ ip_changes ++ cdn_changes

/-- `_is_noise`: a technology change whose lowercased name contains a
noisy-technology entry, or a performance change below 2 percent. -/
def is_noise (change : Change) : Bool :=
  if change.ctype == "technology_change" then
    let tech_name := (change.technology_name.getD "").toLower
    load_noise_filters.noisy_technologies.any (fun noisy => str_contains tech_name noisy)
  else if change.ctype == "performance_change" then
    |change.change_percent.getD 0| < 2
  else
    false

/-- One pass of the `_filter_noise` loop: `true` when the change survives
all three skip rules (noise, ignored patch-only version bumps, sub-5%
performance deltas). -/
def keeps_change (change : Change) : Bool :=
  if is_noise change then false
  else if change.ctype == "technology_change" &&
      change.change_type == some "version_changed" &&
      (change.technology_name.getD "") ∈ load_noise_filters.ignore_minor_updates &&
      is_minor_version_change (change.old_version.getD "") (change.new_version.getD "")
    then false
  else if change.ctype == "performance_change" &&
      |change.change_percent.getD 0| < 5
    then false
  else true

/-- `_filter_noise` over a change list. -/
def filter_noise (changes : List Change) : List Change :=
  changes.filter keeps_change

/-- The per-change reliability discount of `_calculate_confidence`. -/
def confidence_factor (ctype : String) : ℚ :=
  if ctype == "technology_change" then 9/10
  else if ctype == "performance_change" then 7/10
  else if ctype == "security_change" then 8/10
  else 1

/-- `_calculate_confidence`: 1 on an empty list, otherwise the mean of
each change's confidence (default 1) discounted by its type factor. -/
def calculate_confidence (changes : List Change) : ℚ :=
  if changes = [] then 1
  else
    (changes.foldl
      (fun acc c => acc + (c.confidence.getD 1) * confidence_factor c.ctype) 0)
      / changes.length

/-- The joint evidence record built by `_gather_evidence`. -/
structure EvidenceSummary where
  old_scan_timestamp : Option String
  new_scan_timestamp : Option String
  old_scan_id : Option String
  new_scan_id : Option String
  total_changes : Nat
  change_types : List String
  severities : List String
  detector_version : String
  detection_time : String
  deriving Repr, DecidableEq

/-- `_gather_evidence`; `detection_time` is the wall-clock reading
`datetime.now(timezone.utc)` taken inside the function, passed in
explicitly. -/
def gather_evidence (old_scan new_scan : Snapshot) (changes : List Change)
    (detection_time : String) : EvidenceSummary :=
  { old_scan_timestamp := old_scan.scan_timestamp,
    new_scan_timestamp := new_scan.scan_timestamp,
    old_scan_id := old_scan.scan_id,
    new_scan_id := new_scan.scan_id,
    total_changes := changes.length,
    change_types := (changes.map (fun c => c.ctype)).eraseDups,
    severities := (changes.filterMap (fun c => c.severity)).eraseDups,
    detector_version := "1.0.0",
    detection_time := detection_time }

/-- The result record of `detect_changes`. -/
structure ChangeDetection where
  has_changes : Bool
  changes : List Change
  confidence : ℚ
  evidence : EvidenceSummary
  processing_time_ms : ℚ
  deriving Repr, DecidableEq

/-- `detect_changes`: run the five category detectors, drop the noise,
score confidence, and package the evidence.  The two `datetime.now()`
readings bracketing the work are passed in as `start_time`/`end_time`
(seconds), and the evidence timestamp as `detection_time`; the
per-config performance thresholds fetched from store or cache are passed
as `thresholds`. -/
def detect_changes (sim : String → String → ℚ) (old_scan new_scan : Snapshot)
    (thresholds : List (String × ℚ)) (start_time end_time : ℚ)
    (detection_time : String) : ChangeDetection :=
  let all_changes :=
    detect_technology_changes old_scan.technologies new_scan.technologies ++
    detect_performance_changes old_scan.performance new_scan.performance thresholds ++
    detect_security_changes old_scan.security new_scan.security ++
    detect_content_changes sim old_scan.content new_scan.content ++
    detect_infrastructure_changes old_scan.infrastructure new_scan.infrastructure
  let meaningful_changes := filter_noise all_changes
  { has_changes := 0 < meaningful_changes.length,
    changes := meaningful_changes,
    confidence := calculate_confidence meaningful_changes,
    evidence := gather_evidence old_scan new_scan meaningful_changes detection_time,
    processing_time_ms := (end_time - start_time) * 1000 }

/-- A row of the `scan_results` table as read by `_get_previous_scan`
(timestamps as integer seconds). -/
structure ScanRow where
  row_id : String
  config_id : String
  status : String
  scan_timestamp : Nat
  result_summary : Snapshot
  deriving Repr, DecidableEq

/-- The record `_get_previous_scan` builds from the fetched row. -/
structure PrevScan where
  result_summary : Snapshot
  scan_timestamp : Nat
  scan_id : String
  deriving Repr, DecidableEq

/-- Insert into a list kept sorted by descending timestamp (later rows
stay behind equal timestamps, matching a stable descending sort). -/
def insert_desc (r : ScanRow) : List ScanRow → List ScanRow
  | [] => [r]
  | x :: xs => if x.scan_timestamp < r.scan_timestamp then r :: x :: xs
               else x :: insert_desc r xs

/-- `ORDER BY scan_timestamp DESC` as a stable insertion sort. -/
def sort_desc (rows : List ScanRow) : List ScanRow :=
  rows.foldr insert_desc []

/-- `_get_previous_scan`: the query
`SELECT ... WHERE config_id = $1 AND status = "completed"
ORDER BY scan_timestamp DESC LIMIT 2` run through `conn.fetchrow`, which
returns only the FIRST row of the result set — i.e. the most recent
completed scan for the config, with no exclusion of the scan that just
completed. -/
def get_previous_scan (db : List ScanRow) (config_id : String) : Option PrevScan :=
  let rows := sort_desc (db.filter
    (fun r => r.config_id == config_id && r.status == "completed"))
  ((rows.take 2).head?).map (fun row =>
    { result_summary := row.result_summary,
      scan_timestamp := row.scan_timestamp,
      scan_id := row.row_id })

/-- Outcome of `_handle_scan_completed` for one event: either detection
was skipped because no previous scan was found, or `detect_changes` ran
against the fetched snapshot. -/
inductive ScanCompletedOutcome where
  | skipped
  | detected (previous : PrevScan) (result : ChangeDetection)
  deriving Repr, DecidableEq

/-- `_handle_scan_completed`: look up the previous scan for the config
and either run detection against its snapshot or skip. -/
def handle_scan_completed (sim : String → String → ℚ) (db : List ScanRow)
    (thresholds : List (String × ℚ)) (config_id : String)
    (result_summary : Snapshot) (start_time end_time : ℚ)
    (detection_time : String) : ScanCompletedOutcome :=
  match get_previous_scan db config_id with
  | none => .skipped
  | some previous_scan =>
    .detected previous_scan
      (detect_changes sim previous_scan.result_summary result_summary thresholds
        start_time end_time detection_time)

/-- An expiring-cache state (Redis): keys mapped to expiry instants in
seconds; `SETEX key ttl v` stores expiry `now + ttl`, `EXISTS`/`GET` see
the key while `now < expiry`.  Newer writes are consed on and shadow
older bindings. -/
def Cache : Type := List (String × Nat)

/-- Redis `SETEX key ttl_seconds value` at instant `now`. -/
def cache_setex (cache : Cache) (key : String) (ttl_seconds now : Nat) : Cache :=
  (key, now + ttl_seconds) :: cache

/-- Redis `EXISTS key` at instant `now`. -/
def cache_exists (cache : Cache) (key : String) (now : Nat) : Bool :=
  match alist_get cache key with
  | some expiry => now < expiry
  | none => false

/-- An alert rule as loaded by `_get_alert_rules` (only the fields the
throttling path reads). -/
structure AlertRule where
  rule_id : String
  name : String
  severity : String
  throttle_minutes : Nat
  deriving Repr, DecidableEq

/-- The `throttle_minutes` defaulting of `_get_alert_rules`:
`rule_data.get("throttle_minutes", 60)`. -/
def load_throttle_minutes (raw : Option Nat) : Nat :=
  raw.getD 60

/-- The throttle key of `_is_throttled` / `_set_throttle`. -/
def throttle_key (config_id rule_id : String) : String :=
  "alert_throttle:" ++ config_id ++ ":" ++ rule_id

/-- `_is_throttled`: the throttle mark exists in the cache. -/
def is_throttled (cache : Cache) (now : Nat) (config_id rule_id : String) : Bool :=
  cache_exists cache (throttle_key config_id rule_id) now

/-- `_set_throttle`: `SETEX` the mark for `throttle_minutes * 60` seconds. -/
def set_throttle (cache : Cache) (now : Nat) (config_id rule_id : String)
    (throttle_minutes : Nat) : Cache :=
  cache_setex cache (throttle_key config_id rule_id) (throttle_minutes * 60) now

/-- The throttling skeleton of `_create_alert`: return no alert while the
(config, rule) pair is throttled, otherwise create one and set the mark.
The created alert is reported by its creation instant. -/
def create_alert (cache : Cache) (now : Nat) (config_id : String)
    (rule : AlertRule) : Cache × Option Nat :=
  if is_throttled cache now config_id rule.rule_id then (cache, none)
  else (set_throttle cache now config_id rule.rule_id rule.throttle_minutes, some now)

/-- Fold `create_alert` over a sequence of qualifying-change instants,
collecting the instants at which an alert was actually created. -/
def run_qualifying_changes (cache : Cache) (config_id : String)
    (rule : AlertRule) : List Nat → Cache × List Nat
  | [] => (cache, [])
  | t :: ts =>
    match create_alert cache t config_id rule with
    | (cache1, none) =>
      run_qualifying_changes cache1 config_id rule ts
    | (cache1, some created) =>
      let rest := run_qualifying_changes cache1 config_id rule ts
      (rest.fst, created :: rest.snd)

/-- A notification channel configuration (only the fields the dispatch
loop of `_send_notifications` reads). -/
structure ChannelConfig where
  ctype : String
  cname : Option String := none
  deriving Repr, DecidableEq

/-- The registered channel handler types (`AlertEngine.channel_handlers`). -/
def channel_handler_types : List String :=
  ["email", "slack", "webhook", "sms"]

/-- One notification attempt as appended to `results` and logged by
`_log_notification_attempt` (same channel type, config name and
per-channel status in both places). -/
structure NotificationAttempt where
  channel_type : String
  channel_name : String
  status : String
  deriving Repr, DecidableEq

/-- The dispatch loop of `_send_notifications`: a channel whose type has
no registered handler is skipped without a record; every other channel is
attempted, and its individual outcome (injected as `send`, indexed by the
channel's position in the configured list) is recorded.  -/
def send_notifications_from (send : Nat → String) :
    Nat → List ChannelConfig → List NotificationAttempt
  | _, [] => []
  | i, c :: cs =>
    if c.ctype ∈ channel_handler_types then
      { channel_type := c.ctype, channel_name := c.cname.getD "unnamed",
        status := send i } :: send_notifications_from send (i + 1) cs
    else
      send_notifications_from send (i + 1) cs

/-- `_send_notifications`, started at position 0. -/
def send_notifications (send : Nat → String) (channels : List ChannelConfig) :
    List NotificationAttempt :=
  send_notifications_from send 0 channels

/-- `_update_alert_notification_status`: `notification_sent` is true iff
any recorded attempt has status "sent". -/
def update_alert_notification_status (results : List NotificationAttempt) : Bool :=
  results.any (fun r => r.status == "sent")

/-- The URL scheme grammar of `urllib.parse`: a letter followed by
letters, digits, "+", "-" or ".". -/
def valid_scheme : List Char → Bool
  | [] => false
  | c :: rest =>
    c.isAlpha && rest.all (fun d => d.isAlphanum || d == '+' || d == '-' || d == '.')

/-- Strip a leading `scheme:` as `urllib.parse.urlparse` does: the text
before the first ":" is removed exactly when it fits the scheme grammar. -/
def strip_url_scheme (l : List Char) : List Char :=
  let pre := l.takeWhile (fun c => c ≠ ':')
  if pre.length < l.length ∧ valid_scheme pre then l.drop (pre.length + 1) else l

/-- The `netloc` component of `urllib.parse.urlparse`: present only when
the remainder after the scheme starts with "//", and then runs to the
first "/", "?" or "#". -/
def url_netloc (url : String) : String :=
  let rest := strip_url_scheme url.data
  if rest.take 2 = ['/', '/'] then
    String.mk ((rest.drop 2).takeWhile (fun c => c ≠ '/' ∧ c ≠ '?' ∧ c ≠ '#'))
  else ""

/-- `RateLimiter._extract_domain`: `urlparse(url).netloc.lower()`. -/
def extract_domain (url : String) : String :=
  (url_netloc url).toLower

/-- The key written by the rate limiter for a target URL. -/
def rate_limit_key (url : String) : String :=
  "scan_rate:" ++ extract_domain url

/-- Rate-limiter cache state: key, recorded instant, expiry instant. -/
def RateCache : Type := List (String × Nat × Nat)

/-- Redis `GET` on the rate-limiter cache at instant `now`: the recorded
timestamp, if the key has not expired. -/
def rate_get (cache : RateCache) (key : String) (now : Nat) : Option Nat :=
  match cache.find? (fun e => e.fst == key) with
  | some (_, recorded, expiry) => if now < expiry then some recorded else none
  | none => none

/-- `RateLimiter.record_scan`: `SETEX` the current timestamp under the
domain key with a TTL of `ttl_minutes` (default 5). -/
def record_scan (cache : RateCache) (url : String) (ttl_minutes now : Nat) : RateCache :=
  (rate_limit_key url, now, now + ttl_minutes * 60) :: cache

/-- `RateLimiter.is_allowed`: allowed unless a scan for the same domain
key was recorded less than `min_interval_minutes` (default 5) ago and the
mark has not expired. -/
def is_allowed (cache : RateCache) (url : String) (min_interval_minutes now : Nat) : Bool :=
  match rate_get cache (rate_limit_key url) now with
  | some last_scan_time => !(now - last_scan_time < min_interval_minutes * 60)
  | none => true

/-- A monitoring schedule: a cron schedule is embedded by its occurrence
predicate over instants (seconds); an interval schedule carries
`schedule.get("minutes", 60)`; any other `type` falls to the default
branch. -/
inductive Schedule where
  | cron (occurs : Nat → Bool)
  | interval (minutes : Option Nat)
  | other

/-- Side condition for `croniter.get_next`: some occurrence lies strictly
after `now`. -/
def cron_ok : Schedule → Nat → Prop
  | .cron occurs, now => ∃ k, now < k ∧ occurs k = true
  | .interval _, _ => True
  | .other, _ => True

/-- Modelled third-party dependency `croniter(expr, now).get_next(...)`:
the least occurrence of the cron schedule strictly after `now`. -/
def croniter_get_next (occurs : Nat → Bool) (now : Nat)
    (h : ∃ k, now < k ∧ occurs k = true) : Nat :=
  Nat.find h

/-- `_calculate_next_scan_time` of `monitoring_pipeline.py`, with the
clock reading passed as `now`. -/
def calculate_next_scan_time (schedule : Schedule) (now : Nat)
    (h : cron_ok schedule now) : Nat :=
  match schedule, h with
  | .cron occurs, h => croniter_get_next occurs now h
  | .interval minutes, _ => now + (minutes.getD 60) * 60
  | .other, _ => now + 3600

/-- The `_trigger_scan` / `_update_scan_scheduled` path: when the rate
limiter allows the scan and the publish succeeds, the rate mark is
recorded and the freshly computed `next_scan_at` is persisted (returned
as `some`); a rate-limited or failed-publish trigger persists nothing. -/
def trigger_scan (cache : RateCache) (schedule : Schedule) (url : String)
    (publish_success : Bool) (now : Nat) (h : cron_ok schedule now) :
    RateCache × Option Nat :=
  if is_allowed cache url 5 now then
    if publish_success then
      (record_scan cache url 5 now, some (calculate_next_scan_time schedule now h))
    else (cache, none)
  else (cache, none)

/-- The fixed dead-letter topic of `kafka_client.py`. -/
def dlq_topic : String := "dlq.failed-messages"

/-- One consumed bus message: topic and (possibly falsy) payload; the
payload is kept opaque. -/
structure ConsumedMsg where
  topic : String
  value : Option String
  deriving Repr, DecidableEq

/-- A dead-letter record: `_send_to_dlq` wraps the original payload, the
source topic and the error text into the `data` of a `dlq_message` and
produces it to `dlq_topic` (the DLQ produce itself is modelled as
succeeding). -/
structure DlqEntry where
  original_message : Option String
  original_topic : String
  error : String
  deriving Repr, DecidableEq

/-- State of one consumer loop: dead-lettered records plus the
consumed/error counters of `KafkaClient.metrics`. -/
structure ConsumeState where
  dlq : List DlqEntry
  messages_consumed : Nat
  consumption_errors : Nat
  deriving Repr, DecidableEq

/-- One iteration of the `_consume_messages` loop body.  A falsy payload
is skipped; a handler exception (`handler p = some error`) counts an
error and routes the message to the DLQ unless it already came from the
DLQ topic; the loop then continues either way. -/
def consume_step (handler : String → Option String) (state : ConsumeState)
    (msg : ConsumedMsg) : ConsumeState :=
  match msg.value with
  | none => state
  | some payload =>
    match handler payload with
    | none =>
      { state with messages_consumed := state.messages_consumed + 1 }
    | some error =>
      let state1 :=
        { state with consumption_errors := state.consumption_errors + 1 }
      if msg.topic ≠ dlq_topic then
        { state1 with dlq := state1.dlq ++
            [{ original_message := some payload, original_topic := msg.topic,
               error := error }] }
      else state1

/-- `_consume_messages`: fold the loop body over the delivered messages. -/
def consume_messages (handler : String → Option String)
    (msgs : List ConsumedMsg) : ConsumeState :=
  msgs.foldl (consume_step handler)
    ({ dlq := [], messages_consumed := 0, consumption_errors := 0 })

/-- Result of `producer.send_and_wait` after its internal bounded retries
(producer configured with idempotence and `retries=3`). -/
inductive ProduceOutcome where
  | ok
  | kafkaError (e : String)
  | otherError (e : String)
  deriving Repr, DecidableEq

/-- `produce_message`: success returns true; a `KafkaError` after the
producer's exhausted retries routes the payload to the DLQ (unless the
failed topic already is the DLQ) and returns false; any other exception
returns false without dead-lettering. -/
def produce_message (dlq : List DlqEntry) (topic : String) (payload : String)
    (outcome : ProduceOutcome) : List DlqEntry × Bool :=
  match outcome with
  | .ok => (dlq, true)
  | .kafkaError e =>
    if topic ≠ dlq_topic then
      (dlq ++ [{ original_message := some payload, original_topic := topic,
                 error := e }], false)
    else (dlq, false)
  | .otherError _ => (dlq, false)

/-! Helper lemmas shared by the claim theorems. -/

lemma mem_py_keys_aux {a : String} :
    ∀ {l seen : List String}, a ∈ py_keys_aux seen l ↔ a ∈ l ∧ a ∉ seen := by
  intro l
  induction l with
  | nil => simp [py_keys_aux]
  | cons x xs ih =>
    intro seen
    by_cases hx : x ∈ seen
    · rw [py_keys_aux, if_pos hx, ih]
      by_cases hax : a = x
      · subst hax; simp [hx]
      · simp [hax]
    · rw [py_keys_aux, if_neg hx]
      by_cases hax : a = x
      · subst hax; simp [hx]
      · simp [hax, ih]

lemma mem_py_keys {a : String} {l : List String} : a ∈ py_keys l ↔ a ∈ l := by
  rw [py_keys, mem_py_keys_aux]
  simp

lemma keeps_change_perf {c : Change} (h : keeps_change c = true)
    (ht : c.ctype = "performance_change") : 5 ≤ |c.change_percent.getD 0| := by
  by_contra hlt
  push_neg at hlt
  have h5 : decide (|c.change_percent.getD 0| < 5) = true := by simpa using hlt
  rw [keeps_change, ht] at h
  simp only [show ("performance_change" == "technology_change") = false from rfl,
    show ("performance_change" == "performance_change") = true from rfl,
    Bool.false_and, Bool.true_and, h5, Bool.and_true, Bool.false_eq_true,
    if_false, ite_self] at h
  simp at h

/-- C4: for every pair of snapshots and every per-metric threshold
configuration, no performance change with a `change_percent` magnitude
below 5 appears in the change list returned by `detect_changes`,
regardless of how low the configured metric threshold is. -/
theorem C4_small_performance_change_never_reported
    (sim : String → String → ℚ) (old_scan new_scan : Snapshot)
    (thresholds : List (String × ℚ)) (start_time end_time : ℚ)
    (detection_time : String) (c : Change)
    (hmem : c ∈ (detect_changes sim old_scan new_scan thresholds
      start_time end_time detection_time).changes)
    (hperf : c.ctype = "performance_change") :
    5 ≤ |c.change_percent.getD 0| := by
  have hk : keeps_change c = true := by
    simp only [detect_changes, filter_noise] at hmem
    exact (List.mem_filter.mp hmem).2
  exact keeps_change_perf hk hperf

def c4_old : Snapshot := { performance := { load_time := some 1000 } }

def c4_new : Snapshot := { performance := { load_time := some 2000 } }

/-- The load-time change `detect_changes` produces for `c4_old → c4_new`. -/
def c4_change : Change :=
  { ctype := "performance_change", metric_name := some "load_time",
    metric_display_name := some "Page Load Time", unit := some "ms",
    old_value := some 1000, new_value := some 2000, change_percent := some 100,
    threshold_exceeded := some true, severity := some "critical",
    is_degradation := some true, evidence := .perfMetric 15 none none }

set_option maxRecDepth 4000 in
/-- Witness for C4 at a concrete doubled load time. -/
theorem C4_witness : 5 ≤ |c4_change.change_percent.getD 0| :=
  C4_small_performance_change_never_reported (fun _ _ => 1) c4_old c4_new [] 0 0
    "t" c4_change (by with_unfolding_all decide) (by decide)

/-- C6: for every (old, new) snapshot pair and fixed threshold
configuration, detection is deterministic — the change list and the
confidence score do not depend on the wall-clock readings, the only
run-varying inputs of `detect_changes`. -/
theorem C6_detection_deterministic
    (sim : String → String → ℚ) (old_scan new_scan : Snapshot)
    (thresholds : List (String × ℚ)) (s1 e1 s2 e2 : ℚ) (d1 d2 : String) :
    (detect_changes sim old_scan new_scan thresholds s1 e1 d1).changes =
      (detect_changes sim old_scan new_scan thresholds s2 e2 d2).changes ∧
    (detect_changes sim old_scan new_scan thresholds s1 e1 d1).confidence =
      (detect_changes sim old_scan new_scan thresholds s2 e2 d2).confidence :=
  ⟨rfl, rfl⟩

lemma security_change_shape {old_sec new_sec : SecSection} {c : Change}
    (hc : c ∈ detect_security_changes old_sec new_sec) :
    (∃ hn ov, (hn, ov) ∈ old_sec.security_headers ∧
        c = header_changed_change new_sec.security_headers hn ov) ∨
    (c.change_type ≠ some "security_header_changed" ∧
        ∀ hn ov nv, c.evidence ≠ .headerChange hn ov nv) := by
  simp only [detect_security_changes, List.mem_append] at hc
  rcases hc with ((hadd | hfix) | hhdr) | hssl
  · rcases List.mem_filterMap.mp hadd with ⟨k, _, hk⟩
    rcases Option.map_eq_some'.mp hk with ⟨v, _, hv⟩
    right
    rw [← hv]
    exact ⟨by simp, by simp⟩
  · rcases List.mem_filterMap.mp hfix with ⟨k, _, hk⟩
    rcases Option.map_eq_some'.mp hk with ⟨v, _, hv⟩
    right
    rw [← hv]
    exact ⟨by simp, by simp⟩
  · rcases List.mem_filterMap.mp hhdr with ⟨p, hp, hk⟩
    rcases p with ⟨hn, ov⟩
    rw [header_change] at hk
    split at hk
    · left
      exact ⟨hn, ov, hp, (Option.some.injEq _ _ ▸ hk).symm⟩
    · exact absurd hk (by simp)
  · right
    split at hssl
    · rcases List.mem_singleton.mp hssl with rfl
      exact ⟨by simp, by simp⟩
    · exact absurd hssl (List.not_mem_nil c)

/-- C10: every `security_header_changed` change reported by
`_detect_security_changes` refers to a header present in the old
snapshot's `security_headers` map; a header present only in the new
snapshot is never reported as a change. -/
theorem C10_header_change_only_for_old_headers (old_sec new_sec : SecSection) :
    (∀ c ∈ detect_security_changes old_sec new_sec,
        c.change_type = some "security_header_changed" →
        ∃ hn ov, (hn, ov) ∈ old_sec.security_headers ∧
          c.evidence = .headerChange hn ov (alist_get new_sec.security_headers hn)) ∧
    (∀ hn, hn ∉ old_sec.security_headers.map Prod.fst →
        ∀ c ∈ detect_security_changes old_sec new_sec, ∀ ov nv,
          c.evidence ≠ .headerChange hn ov nv) := by
  constructor
  · intro c hc hct
    rcases security_change_shape hc with ⟨hn, ov, hmem, rfl⟩ | ⟨hne, _⟩
    · exact ⟨hn, ov, hmem, rfl⟩
    · exact absurd hct hne
  · intro hn hnot c hc ov nv
    rcases security_change_shape hc with ⟨hn', ov', hmem, rfl⟩ | ⟨_, hno⟩
    · intro he
      have : hn' = hn := by
        simpa [header_changed_change] using congrArg (fun e => match e with
          | Evidence.headerChange h _ _ => h
          | _ => "") he
      exact hnot (this ▸ List.mem_map.mpr ⟨(hn', ov'), hmem, rfl⟩)
    · exact hno hn ov nv

/-- Witness for C10: a concrete pair where the old snapshot carries an
HSTS header that the new snapshot dropped. -/
theorem C10_witness :
    ∃ hn ov,
      (hn, ov) ∈ [("strict-transport-security", "max-age=63072000")] ∧
      (header_changed_change [] "strict-transport-security" "max-age=63072000").evidence
        = .headerChange hn ov (alist_get [] hn) := by
  have h := (C10_header_change_only_for_old_headers
    { security_headers := [("strict-transport-security", "max-age=63072000")] }
    { security_headers := [] }).1
    (header_changed_change [] "strict-transport-security" "max-age=63072000")
    (by with_unfolding_all decide) (by decide)
  simpa using h

lemma send_notifications_from_shape (send : Nat → String) :
    ∀ (cs : List ChannelConfig) (i : Nat),
      send_notifications_from send i cs =
        ((cs.enumFrom i).filter
            (fun p => p.snd.ctype ∈ channel_handler_types)).map
          (fun p => { channel_type := p.snd.ctype,
                      channel_name := p.snd.cname.getD "unnamed",
                      status := send p.fst }) := by
  intro cs
  induction cs with
  | nil => intro i; simp [send_notifications_from, List.enumFrom]
  | cons c cs ih =>
    intro i
    rw [send_notifications_from]
    by_cases hty : c.ctype ∈ channel_handler_types
    · simp [List.enumFrom, hty, ih]
    · simp [List.enumFrom, hty, ih]

/-- C5: when notifications are dispatched over two or more configured
channels and one send succeeds while another fails, the alert-level
status `notification_sent` is true, and the attempt list holds exactly
one record per attempted channel (every channel whose type has a
handler), each carrying that channel's own status. -/
theorem C5_partial_notification_success
    (send : Nat → String) (channels : List ChannelConfig)
    (i1 i2 : Nat) (c1 c2 : ChannelConfig)
    (hlen : 2 ≤ channels.length)
    (h1 : (i1, c1) ∈ channels.enum) (h1t : c1.ctype ∈ channel_handler_types)
    (h1s : send i1 = "sent")
    (h2 : (i2, c2) ∈ channels.enum) (h2t : c2.ctype ∈ channel_handler_types)
    (h2s : send i2 = "failed") :
    update_alert_notification_status (send_notifications send channels) = true ∧
    send_notifications send channels =
      ((channels.enum.filter
          (fun p => p.snd.ctype ∈ channel_handler_types)).map
        (fun p => { channel_type := p.snd.ctype,
                    channel_name := p.snd.cname.getD "unnamed",
                    status := send p.fst })) := by
  have hshape := send_notifications_from_shape send channels 0
  rw [send_notifications, List.enum] at *
  refine ⟨?_, hshape⟩
  rw [update_alert_notification_status, hshape]
  rw [List.any_eq_true]
  refine ⟨{ channel_type := c1.ctype, channel_name := c1.cname.getD "unnamed",
            status := send i1 }, ?_, by rw [h1s]; rfl⟩
  exact List.mem_map.mpr ⟨(i1, c1),
    List.mem_filter.mpr ⟨h1, by simpa using h1t⟩, rfl⟩

def c5_channels : List ChannelConfig :=
  [{ ctype := "email", cname := some "ops-mail" },
   { ctype := "slack", cname := some "ops-chat" }]

def c5_send : Nat → String := fun i => if i = 0 then "sent" else "failed"

/-- Witness for C5 at two concrete channels, the first succeeding and the
second failing. -/
theorem C5_witness :
    update_alert_notification_status (send_notifications c5_send c5_channels) = true ∧
    send_notifications c5_send c5_channels =
      ((c5_channels.enum.filter
          (fun p => p.snd.ctype ∈ channel_handler_types)).map
        (fun p => { channel_type := p.snd.ctype,
                    channel_name := p.snd.cname.getD "unnamed",
                    status := c5_send p.fst })) :=
  C5_partial_notification_success c5_send c5_channels 0 1
    { ctype := "email", cname := some "ops-mail" }
    { ctype := "slack", cname := some "ops-chat" }
    (by decide) (by decide) (by decide) (by decide) (by decide) (by decide)
    (by decide)

lemma consume_step_dlq_mono {handler : String → Option String}
    {s : ConsumeState} {m : ConsumedMsg} {e : DlqEntry} (he : e ∈ s.dlq) :
    e ∈ (consume_step handler s m).dlq := by
  cases hv : m.value with
  | none => simpa [consume_step, hv] using he
  | some payload =>
    cases hh : handler payload with
    | none => simpa [consume_step, hv, hh] using he
    | some err =>
      by_cases ht : m.topic = dlq_topic
      · simpa [consume_step, hv, hh, ht] using he
      · simp [consume_step, hv, hh, ht, List.mem_append, he]

lemma consume_step_poison {handler : String → Option String}
    {s : ConsumeState} {m : ConsumedMsg} {payload err : String}
    (hv : m.value = some payload) (hh : handler payload = some err)
    (ht : m.topic ≠ dlq_topic) :
    ({ original_message := some payload, original_topic := m.topic,
       error := err } : DlqEntry) ∈ (consume_step handler s m).dlq := by
  simp [consume_step, hv, hh, ht, List.mem_append]

lemma consume_fold_dlq_mono {handler : String → Option String} {e : DlqEntry} :
    ∀ {msgs : List ConsumedMsg} {s : ConsumeState}, e ∈ s.dlq →
      e ∈ (msgs.foldl (consume_step handler) s).dlq := by
  intro msgs
  induction msgs with
  | nil => intro s he; exact he
  | cons m ms ih => intro s he; exact ih (consume_step_dlq_mono he)

lemma consume_fold_poison {handler : String → Option String}
    {m : ConsumedMsg} {payload err : String}
    (hv : m.value = some payload) (hh : handler payload = some err)
    (ht : m.topic ≠ dlq_topic) :
    ∀ {msgs : List ConsumedMsg} {s : ConsumeState}, m ∈ msgs →
      ({ original_message := some payload, original_topic := m.topic,
         error := err } : DlqEntry) ∈ (msgs.foldl (consume_step handler) s).dlq := by
  intro msgs
  induction msgs with
  | nil => intro s hm; exact absurd hm (List.not_mem_nil m)
  | cons m2 ms ih =>
    intro s hm
    rcases List.mem_cons.mp hm with rfl | hm2
    · rw [List.foldl_cons]
      exact consume_fold_dlq_mono (consume_step_poison hv hh ht)
    · exact ih hm2

lemma consume_fold_count (handler : String → Option String) :
    ∀ (msgs : List ConsumedMsg) (s : ConsumeState),
      (msgs.foldl (consume_step handler) s).messages_consumed +
        (msgs.foldl (consume_step handler) s).consumption_errors =
      s.messages_consumed + s.consumption_errors +
        (msgs.filter (fun m => m.value.isSome)).length := by
  intro msgs
  induction msgs with
  | nil => intro s; simp
  | cons m ms ih =>
    intro s
    rw [List.foldl_cons, ih, List.filter_cons]
    cases hv : m.value with
    | none => simp [consume_step, hv]
    | some payload =>
      cases hh : handler payload with
      | none =>
        simp only [consume_step, hv, hh, Option.isSome_some, if_pos,
          List.length_cons]
        omega
      | some err =>
        by_cases ht : m.topic = dlq_topic
        · simp only [consume_step, hv, hh, ht, Option.isSome_some, if_pos,
            List.length_cons, ne_eq, not_true_eq_false, if_false]
          omega
        · simp only [consume_step, hv, hh, Option.isSome_some, if_pos,
            List.length_cons, ne_eq, ht, not_false_eq_true, if_true]
          omega

/-- C9: a consumed message from a non-dead-letter topic whose handler
raises is republished to the fixed dead-letter topic with its original
payload, source topic and error text; consumption continues, so every
delivered message with a payload is still processed exactly once; and a
produce that fails with a Kafka error after the producer's exhausted
retries likewise routes the payload to the dead-letter topic. -/
theorem C9_poison_messages_routed_to_dlq
    (handler : String → Option String) (msgs : List ConsumedMsg)
    (m : ConsumedMsg) (payload err : String)
    (hm : m ∈ msgs) (hv : m.value = some payload)
    (hh : handler payload = some err) (ht : m.topic ≠ dlq_topic) :
    ({ original_message := some payload, original_topic := m.topic,
       error := err } : DlqEntry) ∈ (consume_messages handler msgs).dlq ∧
    (consume_messages handler msgs).messages_consumed +
        (consume_messages handler msgs).consumption_errors =
      (msgs.filter (fun m => m.value.isSome)).length ∧
    (∀ (dlq : List DlqEntry) (topic p e : String), topic ≠ dlq_topic →
      produce_message dlq topic p (.kafkaError e) =
        (dlq ++ [{ original_message := some p, original_topic := topic,
                   error := e }], false)) := by
  refine ⟨consume_fold_poison hv hh ht hm, ?_, ?_⟩
  · rw [consume_messages, consume_fold_count]
    simp
  · intro dlq topic p e hne
    simp [produce_message, hne]

def c9_msgs : List ConsumedMsg :=
  [{ topic := "scan.completed", value := some "bad-payload" },
   { topic := "scan.completed", value := some "good-payload" },
   { topic := "change.detected", value := none }]

def c9_handler : String → Option String :=
  fun p => if p = "bad-payload" then some "ValueError: boom" else none

/-- Witness for C9 at a concrete poison message followed by a good one. -/
theorem C9_witness :
    ({ original_message := some "bad-payload", original_topic := "scan.completed",
       error := "ValueError: boom" } : DlqEntry) ∈
        (consume_messages c9_handler c9_msgs).dlq ∧
    (consume_messages c9_handler c9_msgs).messages_consumed +
        (consume_messages c9_handler c9_msgs).consumption_errors =
      (c9_msgs.filter (fun m => m.value.isSome)).length ∧
    (∀ (dlq : List DlqEntry) (topic p e : String), topic ≠ dlq_topic →
      produce_message dlq topic p (.kafkaError e) =
        (dlq ++ [{ original_message := some p, original_topic := topic,
                   error := e }], false)) :=
  C9_poison_messages_routed_to_dlq c9_handler c9_msgs
    { topic := "scan.completed", value := some "bad-payload" }
    "bad-payload" "ValueError: boom"
    (by decide) (by decide) (by decide) (by decide)

/-- The network host as the specification words it (claim-side
definition, for comparing the code's keying against the spec): the
netloc with any userinfo and any port stripped, lowercased. -/
def spec_network_host (url : String) : String :=
  let n := (url_netloc url).data
  let host := if n.contains '@'
    then (n.reverse.takeWhile (fun c => c ≠ '@')).reverse
    else n
  (String.mk (host.takeWhile (fun c => c ≠ ':'))).toLower

/-- C7 counterexample: two URLs for the same network host, one carrying
an explicit port.  A scan is recorded for the first at instant 0; an
attempt for the second 60 seconds later — well within the 5-minute
interval — is nevertheless allowed, because the code keys the mark on
the full netloc (host plus port), not on the host alone. -/
theorem C7_counterexample :
    spec_network_host "http://example.com/a"
      = spec_network_host "http://example.com:8080/b" ∧
    is_allowed (record_scan [] "http://example.com/a" 5 0)
      "http://example.com:8080/b" 5 60 = true := by
  constructor
  · with_unfolding_all decide
  · with_unfolding_all decide

lemma record_scan_find {cache : RateCache} {u1 u2 : String} {t0 : Nat}
    (hdom : extract_domain u1 = extract_domain u2) :
    (record_scan cache u1 5 t0).find?
        (fun e => e.fst == rate_limit_key u2) =
      some (rate_limit_key u1, t0, t0 + 5 * 60) := by
  rw [record_scan]
  exact List.find?_cons_of_pos _ (by simp [rate_limit_key, hdom])

/-- C7 amended: the rate limiter keys its mark on the lowercased network
location of the target URL — the host together with any explicit port —
so any two URLs with equal `extract_domain` share one throttle: after a
recorded scan at `t0`, an attempt strictly inside the default 5-minute
interval is rejected and an attempt at or past the interval is accepted. -/
theorem C7_amended_rate_limited_per_netloc
    (cache : RateCache) (u1 u2 : String) (t0 t : Nat)
    (hdom : extract_domain u1 = extract_domain u2) (hle : t0 ≤ t) :
    (t - t0 < 300 → is_allowed (record_scan cache u1 5 t0) u2 5 t = false) ∧
    (300 ≤ t - t0 → is_allowed (record_scan cache u1 5 t0) u2 5 t = true) := by
  constructor
  · intro hwin
    have hc : t < t0 + 5 * 60 := by omega
    have hget : rate_get (record_scan cache u1 5 t0) (rate_limit_key u2) t
        = some t0 := by
      simp only [rate_get, record_scan_find hdom, hc, if_true]
    rw [is_allowed, hget]
    have hw : t - t0 < 5 * 60 := by omega
    simp [hw]
  · intro hafter
    have hc : ¬ t < t0 + 5 * 60 := by omega
    have hget : rate_get (record_scan cache u1 5 t0) (rate_limit_key u2) t
        = none := by
      simp only [rate_get, record_scan_find hdom, hc, if_false]
    rw [is_allowed, hget]

/-- Witness for the amended C7 at two URLs with the same netloc. -/
theorem C7_witness :
    ((100 : Nat) - 0 < 300 →
      is_allowed (record_scan [] "http://app.example.com/x" 5 0)
        "HTTP://app.example.com/healthz" 5 100 = false) ∧
    (300 ≤ (100 : Nat) - 0 →
      is_allowed (record_scan [] "http://app.example.com/x" 5 0)
        "HTTP://app.example.com/healthz" 5 100 = true) :=
  C7_amended_rate_limited_per_netloc [] "http://app.example.com/x"
    "HTTP://app.example.com/healthz" 0 100 (by with_unfolding_all decide)
    (by decide)

/-- C8: after a successfully published trigger, the persisted
`next_scan_at` is, for a cron schedule, the least cron occurrence
strictly after the trigger time, and, for an interval schedule of N
minutes, the trigger time plus N minutes; a rate-allowed successful
publish persists exactly that value. -/
theorem C8_next_scan_at_after_trigger
    (occurs : Nat → Bool) (now m : Nat) (h : cron_ok (.cron occurs) now)
    (cache : RateCache) (url : String)
    (hallow : is_allowed cache url 5 now = true) :
    (now < calculate_next_scan_time (.cron occurs) now h ∧
      occurs (calculate_next_scan_time (.cron occurs) now h) = true ∧
      ∀ k, now < k → occurs k = true →
        calculate_next_scan_time (.cron occurs) now h ≤ k) ∧
    calculate_next_scan_time (.interval (some m)) now trivial = now + m * 60 ∧
    (trigger_scan cache (.cron occurs) url true now h).snd =
      some (calculate_next_scan_time (.cron occurs) now h) ∧
    (trigger_scan cache (.interval (some m)) url true now trivial).snd =
      some (now + m * 60) := by
  refine ⟨⟨?_, ?_, ?_⟩, rfl, ?_, ?_⟩
  · exact (Nat.find_spec h).1
  · exact (Nat.find_spec h).2
  · intro k hk1 hk2
    exact Nat.find_min' h ⟨hk1, hk2⟩
  · simp [trigger_scan, hallow]
  · simp [trigger_scan, hallow]
    rfl

/-- Witness for C8: a cron schedule firing every 7th second, triggered at
instant 3, plus a 30-minute interval schedule. -/
theorem C8_witness :
    ((3 : Nat) < calculate_next_scan_time (.cron (fun k => k % 7 == 0)) 3
        ⟨7, by decide⟩ ∧
      (fun k => k % 7 == 0)
        (calculate_next_scan_time (.cron (fun k => k % 7 == 0)) 3
          ⟨7, by decide⟩) = true ∧
      ∀ k, 3 < k → (fun k => k % 7 == 0) k = true →
        calculate_next_scan_time (.cron (fun k => k % 7 == 0)) 3
          ⟨7, by decide⟩ ≤ k) ∧
    calculate_next_scan_time (.interval (some 30)) 3 trivial = 3 + 30 * 60 ∧
    (trigger_scan [] (.cron (fun k => k % 7 == 0)) "http://example.com/" true 3
        ⟨7, by decide⟩).snd =
      some (calculate_next_scan_time (.cron (fun k => k % 7 == 0)) 3
        ⟨7, by decide⟩) ∧
    (trigger_scan [] (.interval (some 30)) "http://example.com/" true 3
        trivial).snd = some (3 + 30 * 60) :=
  C8_next_scan_at_after_trigger (fun k => k % 7 == 0) 3 30 ⟨7, by decide⟩ []
    "http://example.com/" (by with_unfolding_all decide)

lemma is_throttled_cons (cache0 : Cache) (cid rid : String) (expiry t : Nat) :
    is_throttled ((throttle_key cid rid, expiry) :: cache0) t cid rid
      = decide (t < expiry) := by
  simp [is_throttled, cache_exists, alist_get]

lemma run_all_throttled {cache0 : Cache} {cid : String} {rule : AlertRule}
    {expiry : Nat} :
    ∀ {ts : List Nat}, (∀ t ∈ ts, t < expiry) →
      run_qualifying_changes ((throttle_key cid rule.rule_id, expiry) :: cache0)
          cid rule ts
        = ((throttle_key cid rule.rule_id, expiry) :: cache0, []) := by
  intro ts
  induction ts with
  | nil => intro _; rfl
  | cons t ts ih =>
    intro hwin
    rw [run_qualifying_changes, create_alert,
      if_pos (by
        rw [is_throttled_cons]
        exact decide_eq_true (hwin t (List.mem_cons_self t ts)))]
    exact ih (fun u hu => hwin u (List.mem_cons_of_mem t hu))

/-- C3: once an alert is created for a (config, rule) pair, the throttle
mark is set for `rule.throttle_minutes` (which defaults to 60 when the
stored rule omits it); while the mark lasts, no further qualifying
change creates an alert for that pair no matter how many arrive; and the
first qualifying change at or after the window's end creates exactly one
new alert. -/
theorem C3_throttle_window (cache : Cache) (config_id : String)
    (rule : AlertRule) (t0 t1 : Nat) (ts : List Nat)
    (h0 : is_throttled cache t0 config_id rule.rule_id = false)
    (hwin : ∀ t ∈ ts, t < t0 + rule.throttle_minutes * 60)
    (hafter : t0 + rule.throttle_minutes * 60 ≤ t1) :
    (create_alert cache t0 config_id rule).snd = some t0 ∧
    (∀ t, t < t0 + rule.throttle_minutes * 60 →
      is_throttled (create_alert cache t0 config_id rule).fst t config_id
        rule.rule_id = true) ∧
    run_qualifying_changes (create_alert cache t0 config_id rule).fst config_id
        rule ts
      = ((create_alert cache t0 config_id rule).fst, []) ∧
    (run_qualifying_changes (create_alert cache t0 config_id rule).fst config_id
        rule (ts ++ [t1])).snd = [t1] ∧
    load_throttle_minutes none = 60 := by
  have hca : create_alert cache t0 config_id rule
      = ((throttle_key config_id rule.rule_id,
          t0 + rule.throttle_minutes * 60) :: cache, some t0) := by
    rw [create_alert, if_neg (by simp [h0])]
    rfl
  rw [hca]
  refine ⟨rfl, ?_, run_all_throttled hwin, ?_, rfl⟩
  · intro t ht
    rw [is_throttled_cons]
    exact decide_eq_true ht
  · have hrun : ∀ (us : List Nat), (∀ t ∈ us, t < t0 + rule.throttle_minutes * 60) →
        (run_qualifying_changes
          ((throttle_key config_id rule.rule_id,
            t0 + rule.throttle_minutes * 60) :: cache) config_id rule
          (us ++ [t1])).snd = [t1] := by
      intro us
      induction us with
      | nil =>
        intro _
        rw [List.nil_append, run_qualifying_changes, create_alert,
          if_neg (by
            rw [is_throttled_cons]
            simp
            omega)]
        rfl
      | cons u us ih =>
        intro hw
        rw [List.cons_append, run_qualifying_changes, create_alert,
          if_pos (by
            rw [is_throttled_cons]
            exact decide_eq_true (hw u (List.mem_cons_self u us)))]
        exact ih (fun v hv => hw v (List.mem_cons_of_mem u hv))
    exact hrun ts hwin

def c3_rule : AlertRule :=
  { rule_id := "rule-1", name := "version watch", severity := "high",
    throttle_minutes := 60 }

/-- Witness for C3: an alert at instant 1000, ten qualifying changes
inside the hour-long window, one more at the window's end. -/
theorem C3_witness :
    (create_alert [] 1000 "cfg-1" c3_rule).snd = some 1000 ∧
    (∀ t, t < 1000 + c3_rule.throttle_minutes * 60 →
      is_throttled (create_alert [] 1000 "cfg-1" c3_rule).fst t "cfg-1"
        c3_rule.rule_id = true) ∧
    run_qualifying_changes (create_alert [] 1000 "cfg-1" c3_rule).fst "cfg-1"
        c3_rule [1001, 1002, 1003, 1004, 1005, 2000, 2500, 3000, 4000, 4599]
      = ((create_alert [] 1000 "cfg-1" c3_rule).fst, []) ∧
    (run_qualifying_changes (create_alert [] 1000 "cfg-1" c3_rule).fst "cfg-1"
        c3_rule
        ([1001, 1002, 1003, 1004, 1005, 2000, 2500, 3000, 4000, 4599] ++ [4600])).snd
      = [4600] ∧
    load_throttle_minutes none = 60 :=
  C3_throttle_window [] "cfg-1" c3_rule 1000 4600
    [1001, 1002, 1003, 1004, 1005, 2000, 2500, 3000, 4000, 4599]
    (by decide) (by decide) (by decide)

def c1_snap_a : Snapshot :=
  { technologies := { detected := [{ name := "react", version := some "1.0.0" }] } }

def c1_snap_b : Snapshot :=
  { technologies := { detected := [{ name := "react", version := some "2.0.0" }] } }

def c1_row_a : ScanRow :=
  { row_id := "scan-a", config_id := "cfg-1", status := "completed",
    scan_timestamp := 100, result_summary := c1_snap_a }

def c1_row_b : ScanRow :=
  { row_id := "scan-b", config_id := "cfg-1", status := "completed",
    scan_timestamp := 200, result_summary := c1_snap_b }

/-- C1, evaluated at the failing input: the `scan_results` table holds
two completed scans of config `cfg-1` — the older `scan-a` and the just
finished `scan-b` whose completion event is being handled.  The claim
requires the detector to compare against `scan-a`; the code's
`fetchrow` over `ORDER BY scan_timestamp DESC LIMIT 2` returns `scan-b`
itself, so the handler compares the new snapshot against itself and
finds no changes even though the react major version jumped.  Only the
baseline part of the claim holds: with no completed scan at all the
lookup yields none and detection is skipped. -/
theorem C1_previous_scan_is_current_scan :
    (get_previous_scan [c1_row_a, c1_row_b] "cfg-1").map (fun p => p.scan_id)
      = some "scan-b" ∧
    (detect_changes (fun _ _ => 1) c1_snap_a c1_snap_b [] 0 0 "t").has_changes
      = true ∧
    handle_scan_completed (fun _ _ => 1) [c1_row_a, c1_row_b] [] "cfg-1"
        c1_snap_b 0 0 "t"
      = .detected
          { result_summary := c1_snap_b, scan_timestamp := 200,
            scan_id := "scan-b" }
          (detect_changes (fun _ _ => 1) c1_snap_b c1_snap_b [] 0 0 "t") ∧
    (detect_changes (fun _ _ => 1) c1_snap_b c1_snap_b [] 0 0 "t").has_changes
      = false ∧
    get_previous_scan [] "cfg-1" = none ∧
    handle_scan_completed (fun _ _ => 1) [] [] "cfg-1" c1_snap_b 0 0 "t"
      = .skipped := by
  refine ⟨?_, ?_, ?_, ?_, ?_, ?_⟩ <;> with_unfolding_all decide

lemma find_tech_of_nodup :
    ∀ {l : List TechRecord}, (l.map (fun t => t.name)).Nodup →
      ∀ {r : TechRecord}, r ∈ l → find_tech l r.name = some r := by
  intro l
  induction l with
  | nil => intro _ r hr; exact absurd hr (List.not_mem_nil r)
  | cons x xs ih =>
    intro hnd r hr
    rcases List.mem_cons.mp hr with rfl | hr'
    · exact List.find?_cons_of_pos _ (by simp)
    · have hx : ¬((fun t : TechRecord => t.name == r.name) x = true) := by
        simp only [beq_iff_eq]
        intro he
        refine (List.nodup_cons.mp hnd).1 ?_
        show (fun t : TechRecord => t.name) x ∈ _
        rw [show (fun t : TechRecord => t.name) x = r.name from he]
        exact List.mem_map.mpr ⟨r, hr', rfl⟩
      calc List.find? (fun t : TechRecord => t.name == r.name) (x :: xs)
          = List.find? (fun t : TechRecord => t.name == r.name) xs :=
            List.find?_cons_of_neg _ hx
        _ = some r := ih (List.nodup_cons.mp hnd).2 hr'

lemma find_tech_some {l : List TechRecord} {n : String} {r : TechRecord}
    (h : find_tech l n = some r) : r ∈ l ∧ r.name = n := by
  refine ⟨List.mem_of_find?_eq_some h, ?_⟩
  have := List.find?_some h
  simpa [beq_iff_eq] using this

lemma significant_eq_false_iff (ov nv : String) :
    is_significant_version_change ov nv = false ↔
      ∃ po pn, parse_version ov = some po ∧ parse_version nv = some pn ∧
        po ≠ [] ∧ pn ≠ [] ∧ po.headI = pn.headI := by
  rw [is_significant_version_change]
  cases hpo : parse_version ov with
  | none => simp
  | some po =>
    cases hpn : parse_version nv with
    | none => simp
    | some pn =>
      dsimp only
      by_cases h0 : 0 < po.length ∧ 0 < pn.length
      · have hpo0 : po ≠ [] := List.ne_nil_of_length_pos h0.1
        have hpn0 : pn ≠ [] := List.ne_nil_of_length_pos h0.2
        simp [h0.1, h0.2, hpo0, hpn0]
      · rcases Decidable.not_and_iff_or_not.mp h0 with hz | hz
        · have hpo0 : po = [] := by
            cases po with
            | nil => rfl
            | cons a as => exact absurd (by simp) hz
          subst hpo0
          simp
        · have hpn0 : pn = [] := by
            cases pn with
            | nil => rfl
            | cons a as => exact absurd (by simp) hz
          subst hpn0
          simp

lemma significant_of_ne_false {ov nv : String}
    (h : ¬ ∃ po pn, parse_version ov = some po ∧ parse_version nv = some pn ∧
        po ≠ [] ∧ pn ≠ [] ∧ po.headI = pn.headI) :
    is_significant_version_change ov nv = true := by
  rcases hb : is_significant_version_change ov nv with _ | _
  · exact absurd ((significant_eq_false_iff ov nv).mp hb) h
  · rfl

lemma minor_false_of_significant {ov nv : String}
    (h : is_significant_version_change ov nv = true) :
    is_minor_version_change ov nv = false := by
  rcases hb : is_minor_version_change ov nv with _ | _
  · rfl
  · exfalso
    rw [is_minor_version_change] at hb
    rcases hpo : parse_version ov with _ | po <;> rw [hpo] at hb
    · exact Bool.false_ne_true hb
    · rcases hpn : parse_version nv with _ | pn <;> rw [hpn] at hb
      · exact Bool.false_ne_true hb
      · simp only [Bool.and_eq_true, decide_eq_true_eq, beq_iff_eq,
          bne_iff_ne] at hb
        obtain ⟨⟨⟨⟨h3o, h3n⟩, hmaj⟩, _⟩, _⟩ := hb
        rw [is_significant_version_change, hpo, hpn] at h
        dsimp only at h
        have h0 : (decide (0 < po.length) && decide (0 < pn.length)) = true := by
          simp
          omega
        rw [if_pos h0] at h
        simp only [bne_iff_ne, decide_eq_true_eq] at h
        exact h hmaj

lemma tech_added_change_type {new_tech : TechSection} {n : String} {c : Change}
    (h : tech_added_change new_tech n = some c) : c.change_type = some "added" := by
  rcases Option.map_eq_some'.mp h with ⟨t, _, ht⟩
  rw [← ht]

lemma tech_removed_change_type {old_tech : TechSection} {n : String} {c : Change}
    (h : tech_removed_change old_tech n = some c) :
    c.change_type = some "removed" := by
  rcases Option.map_eq_some'.mp h with ⟨t, _, ht⟩
  rw [← ht]

lemma tech_version_change_some {old_tech new_tech : TechSection} {n : String}
    {c : Change} (h : tech_version_change old_tech new_tech n = some c) :
    ∃ rA rB, find_tech old_tech.detected n = some rA ∧
      find_tech new_tech.detected n = some rB ∧
      rA.version.getD "" ≠ "" ∧ rB.version.getD "" ≠ "" ∧
      rA.version.getD "" ≠ rB.version.getD "" ∧
      is_significant_version_change (rA.version.getD "") (rB.version.getD "")
        = true ∧
      c = version_changed_record n rA rB := by
  rw [tech_version_change] at h
  rcases hA : find_tech old_tech.detected n with _ | rA <;> rw [hA] at h
  · exact absurd h (by simp)
  · rcases hB : find_tech new_tech.detected n with _ | rB <;> rw [hB] at h
    · exact absurd h (by simp)
    · dsimp only at h
      split at h
      · split at h
        · rename_i hcond hsig
          exact ⟨rA, rB, rfl, rfl, hcond.1, hcond.2.1, hcond.2.2, hsig,
            (Option.some.injEq _ _ ▸ h).symm⟩
        · exact absurd h (by simp)
      · exact absurd h (by simp)

lemma tech_version_change_mk {old_tech new_tech : TechSection} {n : String}
    {rA rB : TechRecord}
    (hA : find_tech old_tech.detected n = some rA)
    (hB : find_tech new_tech.detected n = some rB)
    (hov : rA.version.getD "" ≠ "") (hnv : rB.version.getD "" ≠ "")
    (hne : rA.version.getD "" ≠ rB.version.getD "")
    (hsig : is_significant_version_change (rA.version.getD "")
      (rB.version.getD "") = true) :
    tech_version_change old_tech new_tech n
      = some (version_changed_record n rA rB) := by
  rw [tech_version_change, hA, hB]
  dsimp only
  rw [if_pos ⟨hov, hnv, hne⟩, if_pos hsig]

/-- C2 counterexample: react is present in both snapshots with non-empty
differing versions 17.1.0 and 17.2.0 — the minor version differs and
react's recorded importance is "high", above low — yet the detector
reports nothing: `_is_significant_version_change` returns at the
major-version comparison for every parseable version pair, so the
minor-version clause of the claim never fires. -/
theorem C2_counterexample :
    parse_version "17.1.0" = some [17, 1, 0] ∧
    parse_version "17.2.0" = some [17, 2, 0] ∧
    assess_tech_impact "react" = "high" ∧
    filter_noise (detect_technology_changes
      { detected := [{ name := "react", version := some "17.1.0" }] }
      { detected := [{ name := "react", version := some "17.2.0" }] }) = [] := by
  refine ⟨?_, ?_, ?_, ?_⟩ <;> with_unfolding_all decide

/-- C2 amended: for a technology present in both snapshots with
non-empty differing version strings, a `version_changed` change is
reported iff no noisy-technology entry occurs as a substring of the
lowercased name AND it is not the case that both versions parse as
dot-separated integers with an equal leading (major) component — i.e.
iff the major version differs or a version is unparseable; the
minor-version/importance clause never applies.  Every reported change
carries the recorded versions and the impact of
`_assess_version_impact` (the base importance, bumped one level on a
major jump, capped at critical). -/
theorem C2_amended_version_change_reporting
    (old_tech new_tech : TechSection) (n ov nv : String) (r1 r2 : TechRecord)
    (hnd_old : (old_tech.detected.map (fun t => t.name)).Nodup)
    (hnd_new : (new_tech.detected.map (fun t => t.name)).Nodup)
    (hr1 : r1 ∈ old_tech.detected) (hr1n : r1.name = n)
    (hr1v : r1.version.getD "" = ov)
    (hr2 : r2 ∈ new_tech.detected) (hr2n : r2.name = n)
    (hr2v : r2.version.getD "" = nv)
    (hov : ov ≠ "") (hnv : nv ≠ "") (hne : ov ≠ nv) :
    ((∃ c ∈ filter_noise (detect_technology_changes old_tech new_tech),
        c.change_type = some "version_changed" ∧ c.technology_name = some n) ↔
      ((∀ s ∈ load_noise_filters.noisy_technologies,
          str_contains n.toLower s = false) ∧
        ¬ ∃ po pn, parse_version ov = some po ∧ parse_version nv = some pn ∧
            po ≠ [] ∧ pn ≠ [] ∧ po.headI = pn.headI)) ∧
    (∀ c ∈ filter_noise (detect_technology_changes old_tech new_tech),
        c.change_type = some "version_changed" → c.technology_name = some n →
        c = version_changed_record n r1 r2 ∧
        c.old_version = some ov ∧ c.new_version = some nv ∧
        c.impact_assessment = some (assess_version_impact n ov nv)) := by
  have hfind1 : find_tech old_tech.detected n = some r1 :=
    hr1n ▸ find_tech_of_nodup hnd_old hr1
  have hfind2 : find_tech new_tech.detected n = some r2 :=
    hr2n ▸ find_tech_of_nodup hnd_new hr2
  have hanalysis : ∀ c ∈ filter_noise (detect_technology_changes old_tech new_tech),
      c.change_type = some "version_changed" → c.technology_name = some n →
      c = version_changed_record n r1 r2 ∧
        is_significant_version_change ov nv = true ∧ keeps_change c = true := by
    intro c hc hct hcn
    rw [filter_noise] at hc
    obtain ⟨hcL, hkeep⟩ := List.mem_filter.mp hc
    simp only [detect_technology_changes, List.mem_append] at hcL
    rcases hcL with (hadd | hrem) | hver
    · obtain ⟨n', _, hsome⟩ := List.mem_filterMap.mp hadd
      rw [tech_added_change_type hsome] at hct
      exact absurd hct (by simp)
    · obtain ⟨n', _, hsome⟩ := List.mem_filterMap.mp hrem
      rw [tech_removed_change_type hsome] at hct
      exact absurd hct (by simp)
    · obtain ⟨n', _, hsome⟩ := List.mem_filterMap.mp hver
      obtain ⟨rA, rB, hA, hB, _, _, _, hsig, rfl⟩ :=
        tech_version_change_some hsome
      have hn' : n' = n := by simpa [version_changed_record] using hcn
      subst hn'
      rw [hfind1] at hA
      rw [hfind2] at hB
      obtain rfl : rA = r1 := by injection hA.symm
      obtain rfl : rB = r2 := by injection hB.symm
      rw [hr1v, hr2v] at hsig
      exact ⟨rfl, hsig, hkeep⟩
  constructor
  · constructor
    · rintro ⟨c, hcF, hct, hcn⟩
      obtain ⟨rfl, hsig, hkeep⟩ := hanalysis c hcF hct hcn
      constructor
      · have hnoise : is_noise (version_changed_record n r1 r2) = false := by
          rcases hb : is_noise (version_changed_record n r1 r2) with _ | _
          · rfl
          · rw [keeps_change, if_pos hb] at hkeep
            exact absurd hkeep (by simp)
        rw [is_noise] at hnoise
        simp only [version_changed_record, show
          ("technology_change" == "technology_change") = true from rfl,
          if_true, Option.getD_some, List.any_eq_false] at hnoise
        intro s hs
        simpa using hnoise s hs
      · intro hex
        rw [(significant_eq_false_iff ov nv).mpr hex] at hsig
        exact absurd hsig (by simp)
    · rintro ⟨hnoisy, hnsig⟩
      have hsig : is_significant_version_change ov nv = true :=
        significant_of_ne_false hnsig
      have hminor : is_minor_version_change ov nv = false :=
        minor_false_of_significant hsig
      refine ⟨version_changed_record n r1 r2, ?_,
        by simp [version_changed_record], by simp [version_changed_record]⟩
      rw [filter_noise]
      refine List.mem_filter.mpr ⟨?_, ?_⟩
      · simp only [detect_technology_changes, List.mem_append]
        refine Or.inr (List.mem_filterMap.mpr ⟨n, ?_, ?_⟩)
        · refine List.mem_filter.mpr ⟨?_, ?_⟩
          · exact mem_py_keys.mpr (List.mem_map.mpr ⟨r1, hr1, hr1n⟩)
          · simpa using mem_py_keys.mpr (List.mem_map.mpr ⟨r2, hr2, hr2n⟩)
        · exact tech_version_change_mk hfind1 hfind2
            (by rw [hr1v]; exact hov) (by rw [hr2v]; exact hnv)
            (by rw [hr1v, hr2v]; exact hne)
            (by rw [hr1v, hr2v]; exact hsig)
      · have hnoise : is_noise (version_changed_record n r1 r2) = false := by
          rw [is_noise]
          simp only [version_changed_record, show
            ("technology_change" == "technology_change") = true from rfl,
            if_true, Option.getD_some, List.any_eq_false]
          intro s hs
          simpa using hnoisy s hs
        rw [keeps_change, if_neg (by simp [hnoise])]
        simp [version_changed_record, hr1v, hr2v, hminor]
  · intro c hc hct hcn
    obtain ⟨rfl, _, _⟩ := hanalysis c hc hct hcn
    refine ⟨rfl, ?_, ?_, ?_⟩
    · simp [version_changed_record, hr1v]
    · simp [version_changed_record, hr2v]
    · simp [version_changed_record, hr1v, hr2v]

def c2_r1 : TechRecord :=
  { name := "react", version := some "1.0.0",
    category := some "javascript-frameworks", confidence := some 1 }

def c2_r2 : TechRecord :=
  { name := "react", version := some "2.0.0",
    category := some "javascript-frameworks", confidence := some 1 }

/-- Witness for the amended C2 at a concrete react major-version jump. -/
theorem C2_witness :
    ((∃ c ∈ filter_noise (detect_technology_changes { detected := [c2_r1] }
        { detected := [c2_r2] }),
        c.change_type = some "version_changed" ∧
          c.technology_name = some "react") ↔
      ((∀ s ∈ load_noise_filters.noisy_technologies,
          str_contains "react".toLower s = false) ∧
        ¬ ∃ po pn, parse_version "1.0.0" = some po ∧
            parse_version "2.0.0" = some pn ∧
            po ≠ [] ∧ pn ≠ [] ∧ po.headI = pn.headI)) ∧
    (∀ c ∈ filter_noise (detect_technology_changes { detected := [c2_r1] }
        { detected := [c2_r2] }),
        c.change_type = some "version_changed" →
        c.technology_name = some "react" →
        c = version_changed_record "react" c2_r1 c2_r2 ∧
        c.old_version = some "1.0.0" ∧ c.new_version = some "2.0.0" ∧
        c.impact_assessment =
          some (assess_version_impact "react" "1.0.0" "2.0.0")) :=
  C2_amended_version_change_reporting { detected := [c2_r1] }
    { detected := [c2_r2] } "react" "1.0.0" "2.0.0" c2_r1 c2_r2
    (by decide) (by decide) (by decide) (by decide) (by decide)
    (by decide) (by decide) (by decide) (by decide) (by decide) (by decide)

end TechScanIQ
